import Mathlib

/-!
Verification of the offers synchronization and storage subsystem
(package `offers`: `offer.go`, `db_mysql.go`, `config.go`).

The MySQL table `offers` (see `createTableStatements`, config.go:17-32) is
modelled as a list of rows: each row carries the auto-increment internal
`id` column, the seven string columns of the `Offer` value, and the
`updated BOOLEAN NOT NULL default 1` column that is used as the
mark-and-sweep "touched" flag.  The store operations of `db_mysql.go`
are embedded as pure state transformers over this table; the reconciler
of `config.go` (`updateProducts`, `updateOffersData`, ...) is embedded
as explicit state-passing over pages of records.  Transient
statement-execution failures of the insert path (the only upsert failures
the reconciler reacts to) are injected by the global call index of the
`AddOffer` invocation, modelling an I/O failure of `Stmt.Exec`.
-/

namespace Offers

/-- Offer holds metadata about an offer (offer.go:8-16). -/
structure Offer where
  id          : String
  title       : String
  price       : String
  currency    : String
  imageURL    : String
  description : String
  merchantURL : String
deriving DecidableEq, Repr

/-- One row of the `offers` table (config.go:20-31): internal
auto-increment key, the seven offer columns, and the boolean `updated`
column whose schema default is 1 (true). -/
structure Row where
  rowId   : Nat
  offer   : Offer
  updated : Bool
deriving DecidableEq, Repr

/-- The `offers` table: its rows in storage order plus the next value of
the auto-increment counter. -/
structure DBState where
  rows   : List Row
  nextId : Nat
deriving DecidableEq, Repr

/-- ASCII case folding, modelling `strings.ToLower` on the inputs of
interest. -/
def lowerStr (s : String) : String := ⟨s.data.map Char.toLower⟩

/-- Check that the second list starts with the first list. -/
def charsStartWith : List Char → List Char → Bool
  | [], _ => true
  | _ :: _, [] => false
  | a :: as, b :: bs => a = b && charsStartWith as bs

/-- Check that the second list contains the first list as a contiguous
run, modelling `strings.Contains`. -/
def charsContain (needle : List Char) : List Char → Bool
  | [] => charsStartWith needle []
  | hay@(_ :: rest) => charsStartWith needle hay || charsContain needle rest

/-- Model of `strings.Contains hay needle`. -/
def strContains (hay needle : String) : Bool := charsContain needle.data hay.data

/-- GetOffer (db_mysql.go:191-200): `SELECT * FROM offers WHERE offerId = ?`
via `QueryRow`, i.e. the first matching row in storage order; an error when
no row matches. -/
def getOffer (db : DBState) (i : String) : Except String Offer :=
  match db.rows.find? (fun r => r.offer.id == i) with
  | some r => .ok r.offer
  | none => .error ("mysql: could not find offer with id " ++ i)

/-- AddOffer (db_mysql.go:208-220): `INSERT INTO offers (offerId, title,
price, currency, imageUrl, description, merchantUrl) VALUES (?,...,?)`.
The `updated` column is not in the column list, so it takes its schema
default 1 (true).  Returns the new state and the last-insert id. -/
def addOffer (db : DBState) (o : Offer) : DBState × Nat :=
  ({ rows := db.rows ++ [{ rowId := db.nextId, offer := o, updated := true }],
     nextId := db.nextId + 1 }, db.nextId)

/-- Number of `?` placeholders in `updateStatement` (db_mysql.go:233-237):
seven SET binds plus the `WHERE id = ?` bind. -/
def updateStatementNumInput : Nat := 8

/-- The argument list UpdateOffer passes to `execAffectingOneRow`
(db_mysql.go:245): the seven field values, and nothing for the WHERE bind. -/
def updateOfferArgs (o : Offer) : List String :=
  [o.id, o.title, o.price, o.currency, o.imageURL, o.description, o.merchantURL]

/-- Semantics of `updateStatement` when executed with a full set of eight
bound parameters: set the seven columns and `updated = true` on the rows
whose internal id equals the eighth bind (rendered as a decimal string). -/
def runUpdateStatement (db : DBState) (args : List String) : DBState :=
  match args with
  | [oid, t, p, c, img, d, m, widStr] =>
    { db with rows := db.rows.map (fun r =>
        if toString r.rowId == widStr then
          { r with offer := ⟨oid, t, p, c, img, d, m⟩, updated := true }
        else r) }
  | _ => db

/-- UpdateOffer (db_mysql.go:240-247): an empty id is rejected; otherwise
`Stmt.Exec` compares the argument count with the placeholder count before
touching the database (`database/sql` returns "sql: expected 8 arguments,
got 7" without executing), so the statement body is reachable only when
the counts agree. -/
def updateOffer (db : DBState) (o : Offer) : DBState × Option String :=
  if o.id = "" then
    (db, some "mysql: offer with unassigned ID passed into updateOffer")
  else if (updateOfferArgs o).length = updateStatementNumInput then
    (runUpdateStatement db (updateOfferArgs o), none)
  else
    (db, some "mysql: could not execute statement: sql: expected 8 arguments, got 7")

/-- DeleteOffers (db_mysql.go:225-231): `DELETE FROM offers WHERE
updated = false`, i.e. keep exactly the rows whose `updated` column is
true. -/
def deleteOffers (db : DBState) : DBState :=
  { db with rows := db.rows.filter (fun r => r.updated) }

/-- ListOffers / the shared `listStatement` (db_mysql.go:139):
`SELECT * FROM offers limit 50` — the first fifty rows in storage order. -/
def listSnapshot (db : DBState) : List Row := db.rows.take 50

/-- SearchOffers (db_mysql.go:163-186): scan the `listStatement` result
(at most 50 rows), keep the offers whose lowercased description contains
the lowercased query, and report an error when nothing matched. -/
def searchOffers (db : DBState) (s : String) : Except String (List Offer) :=
  let offers := (listSnapshot db).filterMap (fun r =>
    if strContains (lowerStr r.offer.description) (lowerStr s) then some r.offer else none)
  if offers.length = 0 then
    .error ("mysql: could not find offer with description " ++ s)
  else
    .ok offers

/-- State threaded through one reconciliation pass: the table plus
counters of how many `AddOffer` and `DeleteOffers` calls have been made. -/
structure RecState where
  db         : DBState
  addCalls   : Nat
  sweepCalls : Nat
deriving DecidableEq, Repr

/-- The error message an injected insert failure produces (the
`execAffectingOneRow` wrapping of a failed `Stmt.Exec`,
db_mysql.go:293-296). -/
def addFailMsg : String := "mysql: could not execute statement"

/-- The per-record body of the loop in `updateProducts` (config.go:134-151):
`GetOffer(id)`; when it succeeds, `UpdateOffer(o)` is called and its error
is discarded; then `AddOffer(o)` is called unconditionally, and only its
error aborts.  `failAt` lists the global `AddOffer` call indices at which
the statement execution fails (a transient I/O failure). -/
def processRecord (failAt : List Nat) (st : RecState) (o : Offer) : RecState × Option String :=
  let dbAfterUpd :=
    match getOffer st.db o.id with
    | .ok _ => (updateOffer st.db o).1
    | .error _ => st.db
  if st.addCalls ∈ failAt then
    ({ st with db := dbAfterUpd, addCalls := st.addCalls + 1 }, some addFailMsg)
  else
    ({ st with db := (addOffer dbAfterUpd o).1, addCalls := st.addCalls + 1 }, none)

/-- The `for _, product := range res.Resources` loop of `updateProducts`
(config.go:134-151): stop and return the error of the first failing
`AddOffer`; otherwise fall through. -/
def updateProductsLoop (failAt : List Nat) (st : RecState) : List Offer → RecState × Option String
  | [] => (st, none)
  | o :: rest =>
    match processRecord failAt st o with
    | (st1, none) => updateProductsLoop failAt st1 rest
    | (st1, some e) => (st1, some e)

/-- updateProducts (config.go:133-153), the callback handed to
`listCall.Pages` for every page: process the page's records and, when the
loop completed, `return DB.DeleteOffers()`. -/
def updateProducts (failAt : List Nat) (st : RecState) (page : List Offer) : RecState × Option String :=
  match updateProductsLoop failAt st page with
  | (st1, none) =>
    ({ st1 with db := deleteOffers st1.db, sweepCalls := st1.sweepCalls + 1 }, none)
  | (st1, some e) => (st1, some e)

/-- `listCall.Pages(ctx, updateProducts)` (config.go:113): invoke the
callback on each page in order, stopping at (and returning) the first
callback error. -/
def runPages (failAt : List Nat) (st : RecState) : List (List Offer) → RecState × Option String
  | [] => (st, none)
  | p :: ps =>
    match updateProducts failAt st p with
    | (st1, none) => runPages failAt st1 ps
    | (st1, some e) => (st1, some e)

/-- updateProductsList (config.go:110-115): page through one account's
product list; the error returned by `Pages` is dropped and `nil` is
returned.  An account is represented by its list of product pages. -/
def updateProductsList (failAt : List Nat) (st : RecState) (pages : List (List Offer)) : RecState :=
  (runPages failAt st pages).1

/-- updateAccountTables (config.go:116-121): for each sub-account on one
page of the accounts list, run `updateProductsList` (its error is
ignored). -/
def updateAccountTables (failAt : List Nat) (st : RecState)
    (accountsPage : List (List (List Offer))) : RecState :=
  accountsPage.foldl (fun s acc => updateProductsList failAt s acc) st

/-- updateOffersData (config.go:109-129): a plain merchant account is
paged directly; an MCA pages its accounts list and recurses into each
sub-account. -/
def updateOffersData (failAt : List Nat) (st : RecState) (isMCA : Bool)
    (accountPages : List (List Offer))
    (mcaPages : List (List (List (List Offer)))) : RecState :=
  if !isMCA then updateProductsList failAt st accountPages
  else mcaPages.foldl (fun s pg => updateAccountTables failAt s pg) st

/-- Number of stored rows whose `offerId` column equals the given id. -/
def countRowsWithId (db : DBState) (i : String) : Nat :=
  (db.rows.filter (fun r => r.offer.id == i)).length

/-- An offer with only the id and description fields populated. -/
def mkOffer (i d : String) : Offer :=
  { id := i, title := "", price := "", currency := "", imageURL := "",
    description := d, merchantURL := "" }

/-- The empty store with a fresh reconciler state. -/
def st0 : RecState := { db := { rows := [], nextId := 0 }, addCalls := 0, sweepCalls := 0 }

def oA : Offer := mkOffer "A" "alpha things"
def oB : Offer := mkOffer "B" "beta things"
def oC : Offer := mkOffer "C" "gamma things"
def oX : Offer := mkOffer "X" "one fine offer"
def oY : Offer := mkOffer "Y" "another fine offer"

/-- The store pre-populated with offers A, B and C through `AddOffer`
(each row therefore has `updated = 1`, the schema default). -/
def dbABC : DBState :=
  (addOffer (addOffer (addOffer { rows := [], nextId := 0 } oA).1 oB).1 oC).1

/-- The result of one reconciliation pass over the pre-populated store
whose single page upserts only A and B. -/
def c2pass : RecState × Option String :=
  updateProducts [] { db := dbABC, addCalls := 0, sweepCalls := 0 } [oA, oB]

/-- Claim C1: the per-record Get/Update/Add flow of `updateProducts` is
claimed to keep offer ids unique in the store.  Evaluating the code at a
concrete failing input: two passes that each upsert the same offer X,
starting from the empty store, leave two rows with offerId "X" —
`AddOffer` is executed unconditionally even when `GetOffer` found the
record, and the schema has no UNIQUE constraint on `offerId`. -/
theorem c1_duplicate_id_rows :
    countRowsWithId (updateProductsList []
      { db := (updateProductsList [] st0 [[oX]]).db, addCalls := 0, sweepCalls := 0 }
      [[oX]]).db "X" = 2 := by decide

/-- Claim C2: mark-and-sweep is claimed to reset the touched flag each
pass and to delete exactly the untouched rows, so that a pass upserting
only A and B over a store holding A, B, C leaves exactly set A, B.
Evaluating the code at that input: C is still present afterwards (no code
ever resets `updated` to 0, so `DELETE ... WHERE updated = false` removes
nothing), and A and B are now duplicated. -/
theorem c2_sweep_leaves_stale_row :
    countRowsWithId c2pass.1.db "C" = 1 ∧
    countRowsWithId c2pass.1.db "A" = 2 ∧
    countRowsWithId c2pass.1.db "B" = 2 ∧
    c2pass.2 = none := by decide

/-- Claim C3: the sweep is claimed to run exactly once per pass, only
after all pages are exhausted.  Evaluating the code on a two-page account:
`DeleteOffers` runs twice (it is the tail of the per-page callback), and
already runs once after the first page alone, before the second page has
been processed. -/
theorem c3_sweep_once_per_page :
    (updateProductsList [] st0 [[oA], [oB]]).sweepCalls = 2 ∧
    (updateProducts [] st0 [oA]).1.sweepCalls = 1 := by decide

/-- Claim C4: a pass whose upsert fails on the Nth record is claimed to
perform no sweep at any point.  Evaluating the code on a two-page pass
whose third `AddOffer` (first record of page 2) fails: the sweep for
page 1 has already been performed (`sweepCalls = 1`, not 0), the error is
reported, and the two previously upserted records do remain present. -/
theorem c4_partial_pass_sweeps_earlier_pages :
    (runPages [2] st0 [[oA, oB], [oC]]).2 = some addFailMsg ∧
    (runPages [2] st0 [[oA, oB], [oC]]).1.sweepCalls = 1 ∧
    countRowsWithId (runPages [2] st0 [[oA, oB], [oC]]).1.db "A" = 1 ∧
    countRowsWithId (runPages [2] st0 [[oA, oB], [oC]]).1.db "B" = 1 ∧
    countRowsWithId (runPages [2] st0 [[oA, oB], [oC]]).1.db "C" = 0 := by decide

/-- Every stored row has its touched flag set. -/
def allTouched (db : DBState) : Bool := db.rows.all (fun r => r.updated)

/-- The store holding just the offer X, inserted through `AddOffer`. -/
def dbX : DBState := (addOffer { rows := [], nextId := 0 } oX).1

/-- UpdateOffer never returns a modified database: both the empty-id
rejection and the argument-count failure leave the state untouched, and
the statement body is unreachable because seven arguments never match the
eight placeholders. -/
theorem updateOffer_fst (db : DBState) (o : Offer) : (updateOffer db o).1 = db := by
  unfold updateOffer
  split
  · rfl
  · split
    · next h => simp [updateOfferArgs, updateStatementNumInput] at h
    · rfl

/-- Characterization of the per-record flow: since `UpdateOffer` never
changes the database (`updateOffer_fst`) and its error is discarded, the
record's effect is exactly the `AddOffer` call (or the injected failure). -/
theorem processRecord_eq (failAt : List Nat) (st : RecState) (o : Offer) :
    processRecord failAt st o =
      if st.addCalls ∈ failAt then
        ({ st with addCalls := st.addCalls + 1 }, some addFailMsg)
      else
        ({ st with db := (addOffer st.db o).1, addCalls := st.addCalls + 1 }, none) := by
  unfold processRecord
  cases h : getOffer st.db o.id <;> simp [updateOffer_fst]

/-- Splitting the record loop across an append. -/
theorem updateProductsLoop_append (failAt : List Nat) (st : RecState) (xs ys : List Offer) :
    updateProductsLoop failAt st (xs ++ ys) =
      match updateProductsLoop failAt st xs with
      | (st1, none) => updateProductsLoop failAt st1 ys
      | (st1, some e) => (st1, some e) := by
  induction xs generalizing st with
  | nil => rfl
  | cons x xs ih =>
    simp only [List.cons_append, updateProductsLoop]
    cases hp : processRecord failAt st x with
    | mk st1 e =>
      cases e with
      | none => simpa using ih st1
      | some e0 => rfl

/-- With no injected insert failure, the record loop always completes. -/
theorem updateProductsLoop_nofail (st : RecState) (page : List Offer) :
    (updateProductsLoop [] st page).2 = none := by
  induction page generalizing st with
  | nil => rfl
  | cons o rest ih =>
    rw [updateProductsLoop, processRecord_eq]
    simpa using ih _

/-- An existing row survives an `AddOffer` (rows are only appended). -/
theorem addOffer_mem (db : DBState) (o : Offer) (r : Row) (h : r ∈ db.rows) :
    r ∈ (addOffer db o).1.rows := by
  simp only [addOffer, List.mem_append]
  exact Or.inl h

/-- `AddOffer` keeps every row touched: the new row takes the schema
default `updated = 1`. -/
theorem addOffer_allTouched (db : DBState) (o : Offer) (h : allTouched db = true) :
    allTouched (addOffer db o).1 = true := by
  simp only [allTouched, addOffer, List.all_append, Bool.and_eq_true] at *
  exact ⟨h, rfl⟩

/-- On an all-touched store, the sweep deletes nothing. -/
theorem deleteOffers_allTouched_id (db : DBState) (h : allTouched db = true) :
    deleteOffers db = db := by
  have hf : db.rows.filter (fun r => r.updated) = db.rows :=
    List.filter_eq_self.mpr (by simpa [allTouched, List.all_eq_true] using h)
  cases db with
  | mk rows nextId => simp only [deleteOffers] at *; simp [hf]

/-- The record loop preserves stored rows. -/
theorem updateProductsLoop_mem (failAt : List Nat) (page : List Offer) (st : RecState)
    (r : Row) (h : r ∈ st.db.rows) :
    r ∈ (updateProductsLoop failAt st page).1.db.rows := by
  induction page generalizing st with
  | nil => exact h
  | cons o rest ih =>
    rw [updateProductsLoop, processRecord_eq]
    by_cases hc : st.addCalls ∈ failAt
    · simpa [hc] using h
    · simpa [hc] using ih _ (addOffer_mem _ _ _ h)

/-- The record loop preserves the all-touched invariant. -/
theorem updateProductsLoop_allTouched (failAt : List Nat) (page : List Offer) (st : RecState)
    (h : allTouched st.db = true) :
    allTouched (updateProductsLoop failAt st page).1.db = true := by
  induction page generalizing st with
  | nil => exact h
  | cons o rest ih =>
    rw [updateProductsLoop, processRecord_eq]
    by_cases hc : st.addCalls ∈ failAt
    · simpa [hc] using h
    · simpa [hc] using ih _ (addOffer_allTouched _ _ h)

/-- One page callback preserves stored rows on an all-touched store. -/
theorem updateProducts_mem (failAt : List Nat) (page : List Offer) (st : RecState)
    (r : Row) (hA : allTouched st.db = true) (h : r ∈ st.db.rows) :
    r ∈ (updateProducts failAt st page).1.db.rows := by
  rw [updateProducts]
  cases hl : updateProductsLoop failAt st page with
  | mk st1 e =>
    have hm : r ∈ st1.db.rows := by
      have := updateProductsLoop_mem failAt page st r h
      rwa [hl] at this
    have ht : allTouched st1.db = true := by
      have := updateProductsLoop_allTouched failAt page st hA
      rwa [hl] at this
    cases e with
    | none => simpa [deleteOffers_allTouched_id st1.db ht] using hm
    | some e0 => exact hm

/-- One page callback preserves the all-touched invariant. -/
theorem updateProducts_allTouched (failAt : List Nat) (page : List Offer) (st : RecState)
    (hA : allTouched st.db = true) :
    allTouched (updateProducts failAt st page).1.db = true := by
  rw [updateProducts]
  cases hl : updateProductsLoop failAt st page with
  | mk st1 e =>
    have ht : allTouched st1.db = true := by
      have := updateProductsLoop_allTouched failAt page st hA
      rwa [hl] at this
    cases e with
    | none => simpa [deleteOffers_allTouched_id st1.db ht] using ht
    | some e0 => exact ht

/-- Paging preserves the all-touched invariant. -/
theorem runPages_allTouched (failAt : List Nat) (pages : List (List Offer)) (st : RecState)
    (hA : allTouched st.db = true) :
    allTouched (runPages failAt st pages).1.db = true := by
  induction pages generalizing st with
  | nil => exact hA
  | cons p ps ih =>
    rw [runPages]
    cases hp : updateProducts failAt st p with
    | mk st1 e =>
      have ht : allTouched st1.db = true := by
        have := updateProducts_allTouched failAt p st hA
        rwa [hp] at this
      cases e with
      | none => exact ih _ ht
      | some e0 => exact ht

/-- Paging preserves stored rows on an all-touched store: whatever pages
succeed or fail, no previously committed row disappears. -/
theorem runPages_mem (failAt : List Nat) (pages : List (List Offer)) (st : RecState)
    (r : Row) (hA : allTouched st.db = true) (h : r ∈ st.db.rows) :
    r ∈ (runPages failAt st pages).1.db.rows := by
  induction pages generalizing st with
  | nil => exact h
  | cons p ps ih =>
    rw [runPages]
    cases hp : updateProducts failAt st p with
    | mk st1 e =>
      have hm : r ∈ st1.db.rows := by
        have := updateProducts_mem failAt p st r hA h
        rwa [hp] at this
      have ht : allTouched st1.db = true := by
        have := updateProducts_allTouched failAt p st hA
        rwa [hp] at this
      cases e with
      | none => exact ih _ ht hm
      | some e0 => exact hm

/-- The run refuting C5: the store already holds X, and the page carries
X followed by Y, with no injected insert failure. -/
def c5run : RecState × Option String :=
  updateProducts [] { db := dbX, addCalls := 0, sweepCalls := 0 } [oX, oY]

/-- Claim C5 counterexample: an upsert failure on the update path does not
abort the page.  On a store already holding X, processing the page
X, Y calls `GetOffer` (hit) and then `UpdateOffer`, which fails — yet the
page continues to Y (a row for Y is committed) and the callback returns no
error, contradicting the claim that a failure on either path aborts the
remaining records and propagates. -/
theorem c5_update_failure_ignored_cex :
    (getOffer dbX oX.id).isOk = true ∧
    (updateOffer dbX oX).2.isSome = true ∧
    c5run.2 = none ∧
    countRowsWithId c5run.1.db "Y" = 1 := by decide

/-- Claim C5 (amended): only an insert-path (`AddOffer`) failure aborts
the remainder of the page and is propagated by the page callback;
update-path (`UpdateOffer`) failures are discarded, so a page with no
insert failure always completes; and rows committed earlier (all touched)
remain present however later pages fail. -/
theorem c5_insert_failure_semantics :
    (∀ (st : RecState) (page : List Offer), (updateProductsLoop [] st page).2 = none)
    ∧ (∀ (failAt : List Nat) (st : RecState) (done : List Offer) (o : Offer) (rest : List Offer),
        (updateProductsLoop failAt st done).2 = none →
        (updateProductsLoop failAt st done).1.addCalls ∈ failAt →
        updateProductsLoop failAt st (done ++ o :: rest) =
          ((processRecord failAt (updateProductsLoop failAt st done).1 o).1, some addFailMsg))
    ∧ (∀ (failAt : List Nat) (st : RecState) (pages : List (List Offer)) (r : Row),
        allTouched st.db = true → r ∈ st.db.rows →
        r ∈ (runPages failAt st pages).1.db.rows) := by
  refine ⟨updateProductsLoop_nofail, ?_, ?_⟩
  · intro failAt st done o rest hdone hmem
    rw [updateProductsLoop_append]
    cases hl : updateProductsLoop failAt st done with
    | mk st1 e =>
      rw [hl] at hdone hmem
      cases e with
      | none =>
        simp only [hl]
        rw [updateProductsLoop, processRecord_eq]
        simp [hmem]
      | some e0 => exact absurd hdone (by simp)
  · intro failAt st pages r hA hr
    exact runPages_mem failAt pages st r hA hr

/-- Claim C5 witness: the amended statement instantiated — a fault-free
two-record page completes; an insert failure at global call index 0 stops
the page at its first record with the propagated error; and the row for X
survives a later page that inserts Y. -/
theorem c5_insert_failure_semantics_witness :
    ((updateProductsLoop [] st0 [oA, oB]).2 = none)
    ∧ (updateProductsLoop [0] st0 ([] ++ oX :: [oY]) =
        ((processRecord [0] (updateProductsLoop [0] st0 []).1 oX).1, some addFailMsg))
    ∧ ((⟨0, oX, true⟩ : Row) ∈
        (runPages [] { db := dbX, addCalls := 0, sweepCalls := 0 } [[oY]]).1.db.rows) :=
  ⟨c5_insert_failure_semantics.1 st0 [oA, oB],
   c5_insert_failure_semantics.2.1 [0] st0 [] oX [oY] (by decide) (by decide),
   c5_insert_failure_semantics.2.2 [] { db := dbX, addCalls := 0, sweepCalls := 0 }
     [[oY]] ⟨0, oX, true⟩ (by decide) (by decide)⟩

/-- Claim C6: for every offer with a non-empty id, `UpdateOffer` fails
and leaves every stored row unchanged: the update statement has eight
placeholders but only the seven field values are bound, so `Stmt.Exec`
rejects the call before it reaches the database. -/
theorem c6_updateOffer_always_fails (db : DBState) (o : Offer) (h : o.id ≠ "") :
    (updateOffer db o).2 =
      some "mysql: could not execute statement: sql: expected 8 arguments, got 7"
    ∧ (updateOffer db o).1 = db := by
  constructor
  · unfold updateOffer
    rw [if_neg h]
    simp [updateOfferArgs, updateStatementNumInput]
  · exact updateOffer_fst db o

/-- Claim C6 witness: the failure observed on a concrete offer and store. -/
theorem c6_updateOffer_always_fails_witness :
    oX.id ≠ "" ∧
    ((updateOffer dbABC oX).2 =
        some "mysql: could not execute statement: sql: expected 8 arguments, got 7"
      ∧ (updateOffer dbABC oX).1 = dbABC) :=
  ⟨by decide, c6_updateOffer_always_fails dbABC oX (by decide)⟩

/-- The empty needle is contained in every haystack. -/
theorem charsContain_nil (hay : List Char) : charsContain [] hay = true := by
  induction hay with
  | nil => rfl
  | cons h t ih => simp [charsContain, charsStartWith]

/-- `strings.Contains s ""` is true for every `s`. -/
theorem strContains_empty (hay : String) : strContains hay "" = true := by
  have h : ("" : String).data = [] := rfl
  simp [strContains, h, charsContain_nil]

/-- Claim C10: `SearchOffers ""` matches every offer it examines, so on a
store with a non-empty snapshot it returns every offer of the (at most
50-row) list snapshot, and on an empty store it returns an error rather
than an empty list. -/
theorem c10_empty_query (db : DBState) :
    (db.rows ≠ [] → searchOffers db "" = .ok ((listSnapshot db).map (fun r => r.offer)))
    ∧ (db.rows = [] → (searchOffers db "").isOk = false) := by
  have hlow : lowerStr "" = "" := rfl
  have hsome : ∀ l : List Row, l.filterMap (fun r => some r.offer) = l.map (fun r => r.offer) := by
    intro l
    induction l with
    | nil => rfl
    | cons a t ih => simp [List.filterMap_cons, ih]
  have hmap : (listSnapshot db).filterMap (fun r =>
      if strContains (lowerStr r.offer.description) (lowerStr "") then some r.offer else none) =
      (listSnapshot db).map (fun r => r.offer) := by
    simp only [hlow, strContains_empty, if_true]
    exact hsome _
  constructor
  · intro h
    have hne : listSnapshot db ≠ [] := by
      simp only [listSnapshot, ne_eq, List.take_eq_nil_iff]
      simp [h]
    unfold searchOffers
    rw [hmap]
    rw [if_neg (by simpa [List.length_eq_zero] using hne)]
  · intro h
    unfold searchOffers
    rw [hmap]
    simp only [listSnapshot, h, List.take_nil, List.map_nil, List.length_nil, if_pos rfl]
    rfl

/-- Claim C10 witness: on the store holding X the empty query returns the
whole snapshot; on the empty store it fails. -/
theorem c10_empty_query_witness :
    (searchOffers dbX "" = .ok ((listSnapshot dbX).map (fun r => r.offer)))
    ∧ ((searchOffers { rows := [], nextId := 0 } "").isOk = false) :=
  ⟨(c10_empty_query dbX).1 (by decide),
   (c10_empty_query { rows := [], nextId := 0 }).2 rfl⟩

/-- A store with 51 rows: rows 0-49 have description "plain", row 50
(the 51st) is the only one whose description contains "sale". -/
def db51 : DBState :=
  { rows := (List.range 51).map (fun i =>
      { rowId := i, offer := mkOffer (toString i) (if i == 50 then "grand sale" else "plain"),
        updated := true }),
    nextId := 51 }

/-- Claim C7 counterexample: `SearchOffers` does not return all matching
stored offers.  On a 51-row store whose only match is the 51st row, the
search reports a not-found error even though a stored offer's description
contains the query — the scan is capped at the 50-row list snapshot. -/
theorem c7_cap_misses_row_cex :
    (searchOffers db51 "sale").isOk = false ∧
    db51.rows.any (fun r => strContains (lowerStr r.offer.description) (lowerStr "sale")) = true := by
  decide

/-- SearchOffers reports an error exactly when no row of the 50-row list
snapshot matches the query case-insensitively. -/
theorem searchOffers_isOk_false_iff (db : DBState) (s : String) :
    (searchOffers db s).isOk = false ↔
      ∀ r ∈ listSnapshot db, strContains (lowerStr r.offer.description) (lowerStr s) = false := by
  unfold searchOffers
  by_cases h : ((listSnapshot db).filterMap (fun r =>
      if strContains (lowerStr r.offer.description) (lowerStr s) then some r.offer else none)) = []
  · rw [if_pos (by simp [h])]
    constructor
    · intro _ r hr
      have hnone := List.filterMap_eq_nil_iff.mp h r hr
      by_cases hc : strContains (lowerStr r.offer.description) (lowerStr s) = true
      · rw [if_pos hc] at hnone
        exact absurd hnone (by simp)
      · simpa using hc
    · intro _
      rfl
  · rw [if_neg (by simpa [List.length_eq_zero] using h)]
    constructor
    · intro hko
      simp [Except.isOk, Except.toBool] at hko
    · intro hall
      exfalso
      apply h
      apply List.filterMap_eq_nil_iff.mpr
      intro r hr
      rw [if_neg (by simp [hall r hr])]

/-- When SearchOffers succeeds, its result holds an offer exactly when
some row of the 50-row list snapshot carries that offer and its
description matches the query case-insensitively. -/
theorem searchOffers_ok_mem (db : DBState) (s : String) (offers : List Offer)
    (h : searchOffers db s = .ok offers) (o : Offer) :
    o ∈ offers ↔ ∃ r ∈ listSnapshot db, r.offer = o ∧
      strContains (lowerStr o.description) (lowerStr s) = true := by
  unfold searchOffers at h
  by_cases h0 : ((listSnapshot db).filterMap (fun r =>
      if strContains (lowerStr r.offer.description) (lowerStr s) then some r.offer else none)).length = 0
  · rw [if_pos h0] at h
    cases h
  · rw [if_neg h0] at h
    injection h with heq
    subst heq
    rw [List.mem_filterMap]
    constructor
    · rintro ⟨r, hr, hfr⟩
      by_cases hc : strContains (lowerStr r.offer.description) (lowerStr s) = true
      · rw [if_pos hc] at hfr
        injection hfr with hro
        exact ⟨r, hr, hro, by rwa [← hro]⟩
      · rw [if_neg hc] at hfr
        cases hfr
    · rintro ⟨r, hr, hro, hc⟩
      refine ⟨r, hr, ?_⟩
      rw [if_pos (by rwa [hro]), hro]

/-- Claim C7 (amended): SearchOffers matches case-insensitively against
the description only, over the at-most-50-row list snapshot: it fails
exactly when no snapshot row matches, and a successful result holds all
and only the snapshot offers whose description contains the query. -/
theorem c7_snapshot_search_semantics (db : DBState) (s : String) :
    ((searchOffers db s).isOk = false ↔
      ∀ r ∈ listSnapshot db, strContains (lowerStr r.offer.description) (lowerStr s) = false)
    ∧ (∀ offers, searchOffers db s = .ok offers →
        ∀ o : Offer, o ∈ offers ↔ ∃ r ∈ listSnapshot db, r.offer = o ∧
          strContains (lowerStr o.description) (lowerStr s) = true) :=
  ⟨searchOffers_isOk_false_iff db s, fun offers h o => searchOffers_ok_mem db s offers h o⟩

/-- Claim C7 witness: on the store holding X (description "one fine
offer"), searching for "FINE" succeeds with exactly X — observing the
case-insensitive match — and the characterizations hold there. -/
theorem c7_snapshot_search_semantics_witness :
    ((searchOffers dbX "FINE").isOk = false ↔
      ∀ r ∈ listSnapshot dbX, strContains (lowerStr r.offer.description) (lowerStr "FINE") = false)
    ∧ (oX ∈ [oX] ↔ ∃ r ∈ listSnapshot dbX, r.offer = oX ∧
        strContains (lowerStr oX.description) (lowerStr "FINE") = true) :=
  ⟨(c7_snapshot_search_semantics dbX "FINE").1,
   (c7_snapshot_search_semantics dbX "FINE").2 [oX] (by rfl) oX⟩

/-- One entry of `authinfo.AccountIdentifiers` (Content API): a merchant
id or an aggregator id, with 0 standing for an unset field. -/
structure AccountIdentifier where
  merchantId   : Nat
  aggregatorId : Nat
deriving DecidableEq, Repr

/-- The id guard at the top of RunUpdate (config.go:177-179): a zero
merchant id terminates fatally before any upstream query is made. -/
def runUpdateIdGuard (id : Int) : Option String :=
  if id = 0 then some "valid merchant_id should be provided" else none

/-- The defaulting block of `retrieve` (config.go:237-245): with a zero
id, the first identifier is taken and — the inner condition re-testing the
same still-zero `id` — its aggregator id is always selected (the
merchant-id branch is dead code).  This block runs only after the
emptiness check, so the empty case below is unreachable there. -/
def resolveId (authinfo : List AccountIdentifier) (id : Int) : Int :=
  if id = 0 then
    match authinfo with
    | firstAccount :: _ =>
      if id = 0 then (firstAccount.aggregatorId : Int) else (firstAccount.merchantId : Int)
    | [] => id
  else id

/-- The `CheckAccounts` loop of `retrieve` (config.go:249-258): stop at
the first identifier whose merchant id (not an MCA) or aggregator id
(an MCA) equals the resolved id. -/
def checkAccounts (id : Int) : List AccountIdentifier → Bool
  | [] => false
  | i :: rest =>
    if id = (i.merchantId : Int) then false
    else if id = (i.aggregatorId : Int) then true
    else checkAccounts id rest

/-- The account-resolution phase of `retrieve` (config.go:225-263), up to
the final `accounts.Get`: fatal when the authenticated identity has no
accessible accounts (for any id); otherwise the resolved id and the MCA
determination. -/
def retrieveResolve (authinfo : List AccountIdentifier) (id : Int) : Except String (Int × Bool) :=
  if authinfo.length = 0 then
    .error "The current authenticated user has no access to any Merchant Center accounts."
  else
    let id1 := resolveId authinfo id
    .ok (id1, checkAccounts id1 authinfo)

/-- Claim C8 counterexample: with a zero (absent) account id, the driver
does not fall back to the identity's first accessible account:
`RunUpdate` exits fatally before any upstream query, and even the
defaulting block inside `retrieve` would select the first identifier's
aggregator id — 0, not the merchant id 123, when the first identifier is
a plain merchant. -/
theorem c8_zero_id_fatal_cex :
    runUpdateIdGuard 0 = some "valid merchant_id should be provided" ∧
    resolveId [⟨123, 0⟩] 0 = 0 := by decide

/-- Claim C8 (amended): `RunUpdate` rejects exactly a zero account id as
a fatal configuration error before consulting upstream; `retrieve` is
fatal when the identity has no accessible accounts, for any id; its
defaulting block maps a zero id to the first identifier's aggregator id
(never the merchant id); and a non-zero id is kept as supplied. -/
theorem c8_resolution_semantics :
    (∀ id : Int, (runUpdateIdGuard id).isSome = true ↔ id = 0)
    ∧ (∀ id : Int, retrieveResolve [] id =
        .error "The current authenticated user has no access to any Merchant Center accounts.")
    ∧ (∀ (first : AccountIdentifier) (rest : List AccountIdentifier),
        resolveId (first :: rest) 0 = (first.aggregatorId : Int))
    ∧ (∀ (authinfo : List AccountIdentifier) (id : Int), id ≠ 0 → resolveId authinfo id = id) := by
  refine ⟨?_, ?_, ?_, ?_⟩
  · intro id
    by_cases h : id = 0 <;> simp [runUpdateIdGuard, h]
  · intro id
    rfl
  · intro first rest
    rfl
  · intro authinfo id h
    simp [resolveId, h]

/-- Claim C8 witness: the amended semantics observed at concrete inputs. -/
theorem c8_resolution_semantics_witness :
    ((runUpdateIdGuard 0).isSome = true ↔ (0 : Int) = 0)
    ∧ (retrieveResolve [] 7 =
        .error "The current authenticated user has no access to any Merchant Center accounts.")
    ∧ (resolveId [⟨5, 77⟩] 0 = ((⟨5, 77⟩ : AccountIdentifier).aggregatorId : Int))
    ∧ (resolveId [⟨5, 77⟩] 9 = 9) :=
  ⟨c8_resolution_semantics.1 0, c8_resolution_semantics.2.1 7,
   c8_resolution_semantics.2.2.1 ⟨5, 77⟩ [],
   c8_resolution_semantics.2.2.2 [⟨5, 77⟩] 9 (by decide)⟩

/-- An error returned by a statement execution during bootstrap: either a
structured MySQL error carrying its numeric code, or any other error. -/
inductive SqlError where
  | mysqlErr (number : Nat)
  | otherErr (msg : String)
deriving DecidableEq, Repr

/-- The Go test `err.(*mysql.MySQLError)` combined with a code
comparison. -/
def isMySQLErrWith (n : Nat) : SqlError → Bool
  | .mysqlErr m => m == n
  | .otherErr _ => false

/-- What the schema bootstrap decides to do. -/
inductive BootstrapOutcome where
  | created
  | okExisting
  | fatal (msg : String)
deriving DecidableEq, Repr

/-- The `DESCRIBE offers` block of `ensureTableExists`
(db_mysql.go:270-277): error 1146 ("table does not exist") triggers the
create; any other error is returned as fatal. -/
def describeCheck : Option SqlError → BootstrapOutcome
  | some e =>
    if isMySQLErrWith 1146 e then .created
    else .fatal "mysql: could not connect to the database"
  | none => .okExisting

/-- ensureTableExists (db_mysql.go:250-279) as a function of the outcomes
of its two probes, `USE library` and `DESCRIBE offers`: error 1049
("database does not exist") on USE triggers the create, but any other USE
error falls through to the DESCRIBE probe without being returned — the
USE block, unlike the DESCRIBE block, has no return for the unknown-error
case. -/
def ensureTableExists (useRes descRes : Option SqlError) : BootstrapOutcome :=
  match useRes with
  | some e =>
    if isMySQLErrWith 1049 e then .created
    else describeCheck descRes
  | none => describeCheck descRes

/-- Claim C9: a bootstrap error other than the structure-not-found codes
is claimed to propagate as fatal rather than be ignored.  Evaluating the
code where `USE library` fails with MySQL error 1044 (access denied): the
error is silently dropped — if the DESCRIBE probe reports success the
bootstrap reports success, and if DESCRIBE fails (error 1046, no database
selected) the fatal error propagated is the DESCRIBE one, never the
original 1044. -/
theorem c9_use_error_ignored :
    ensureTableExists (some (SqlError.mysqlErr 1044)) none = BootstrapOutcome.okExisting ∧
    ensureTableExists (some (SqlError.mysqlErr 1044)) (some (SqlError.mysqlErr 1046)) =
      BootstrapOutcome.fatal "mysql: could not connect to the database" := by decide

end Offers

